import Mathlib

/-!
# Networking resource manager of the Nexus operator

Shallow embedding of `pkg/controller/nexus/resource/networking/manager.go`.

* Go functions returning `(value, error)` that are defined in `manager.go` return a pair
  whose second component is `Option GoError` (`none` is Go's `nil` error).
* Collaborators that live outside `manager.go` (the discovery probes, the route and
  ingress builders, the cluster client) are parameters; their `(value, error)` results
  are given as `Except GoError value`.
* Every call to a collaborator and every call to the package logger is recorded, in
  program order, in a trace of `Event`s that is threaded through the code.
* A nil-pointer dereference or a failed type assertion (a Go run-time panic) aborts the
  computation: the embedding then yields `none`.
-/

namespace Networking

/-! ## Go values used by the manager -/

/-- Go `error` value: the text of `Error()` and the verdict of `errors.IsNotFound`. -/
structure GoError where
  msg : String
  notFound : Bool
deriving DecidableEq, Repr

/-- Result of `fmt.Errorf` for an already formatted text (no `%w` verb is used in
`manager.go`, hence nothing is wrapped and `errors.IsNotFound` is false). -/
def Errorf (text : String) : GoError :=
  { msg := text, notFound := false }

/-- Verdict of `errors.IsNotFound(err)`. -/
def IsNotFound (err : GoError) : Bool :=
  err.notFound

/-- Format `discFailureFormat` applied to a resource type and an error (`%s`, `%v`). -/
def discFailureFormat (resType : String) (err : GoError) : String :=
  "unable to determine if " ++ resType ++ " are available: " ++ err.msg

/-- Format `resUnavailableFormat` applied to a resource type (`%s`). -/
def resUnavailableFormat (resType : String) : String :=
  resType ++ " are not available in this cluster"

/-- Constant `mgrNotInit`. -/
def mgrNotInit : String :=
  "the manager has not been initialized"

/-- Expose types of package `v1alpha1`: the two constants `manager.go` switches on, and
every other value of the underlying string type. -/
inductive NexusNetworkingExposeType where
  | RouteExposeType
  | IngressExposeType
  | other (name : String)
deriving DecidableEq, Repr

/-- Fields of `Spec.Networking.TLS` read by `manager.go`. -/
structure NexusNetworkingTLS where
  Mandatory : Bool
  SecretName : String
deriving DecidableEq, Repr

/-- Fields of `Spec.Networking` read by `manager.go`. -/
structure NexusNetworking where
  Expose : Bool
  ExposeAs : NexusNetworkingExposeType
  TLS : NexusNetworkingTLS
deriving DecidableEq, Repr

/-- Field of `Nexus.Spec` read by `manager.go`. -/
structure NexusSpec where
  Networking : NexusNetworking
deriving DecidableEq, Repr

/-- The owner resource `v1alpha1.Nexus`, restricted to what `manager.go` reads. -/
structure Nexus where
  Name : String
  Namespace : String
  Spec : NexusSpec
deriving DecidableEq, Repr

/-- Lookup key `types.NamespacedName`. -/
structure NamespacedName where
  Namespace : String
  Name : String
deriving DecidableEq, Repr

/-- The spec and status payloads of the two Kubernetes kinds; they are declared in
external libraries and are kept abstract. -/
structure K8sTypes where
  RouteSpec : Type
  RouteStatus : Type
  IngressSpec : Type
  IngressStatus : Type

/-- Object metadata: identity plus the server-populated fields. -/
structure ObjectMeta where
  Name : String
  Namespace : String
  ResourceVersion : String
  Generation : Int
  Annotations : List (String × String)
deriving DecidableEq, Repr

/-- OpenShift `routev1.Route`. -/
structure Route (T : K8sTypes) where
  ObjectMeta : ObjectMeta
  Spec : T.RouteSpec
  Status : T.RouteStatus

/-- Kubernetes `networkingv1beta1.Ingress`. -/
structure Ingress (T : K8sTypes) where
  ObjectMeta : ObjectMeta
  Spec : T.IngressSpec
  Status : T.IngressStatus

/-- Interface `resource.KubernetesResource`, inhabited here by the two pointer types the
manager produces. -/
inductive KubernetesResource (T : K8sTypes) where
  | route (r : Route T)
  | ingress (i : Ingress T)

/-- Run-time types passed to the comparator lookup (`reflect.Type`). -/
inductive ReflectType where
  | Route
  | Ingress
  | other (name : String)
deriving DecidableEq, Repr

/-! ## Effects -/

/-- Observable calls made by the code, in program order. -/
inductive Event (T : K8sTypes) where
  | logDebug (text : String)
  | logError (text : String)
  | logInfo (text : String) (deployed requested : KubernetesResource T)
  | IsRouteAvailable
  | IsIngressAvailable
  | newRouteBuilder
  | withRedirect
  | routeBuild
  | newIngressBuilder
  | withCustomTLS
  | ingressBuild
  | clientGetRoute (key : NamespacedName)
  | clientGetIngress (key : NamespacedName)

/-- Computations of the embedding: they extend the trace, and yield `none` on a panic. -/
abbrev Act (T : K8sTypes) (α : Type) := StateT (List (Event T)) Option α

/-- Record one event at the end of the trace. -/
def emit {T : K8sTypes} (e : Event T) : Act T Unit :=
  fun tr => some ((), tr ++ [e])

/-- Dereference of a pointer (or use of an interface value) that may be nil. -/
def deref {T : K8sTypes} {α : Type} : Option α → Act T α
  | some a => pure a
  | none => fun _ => none

/-- Run a computation from the empty trace. -/
def Act.exec {T : K8sTypes} {α : Type} (x : Act T α) : Option (α × List (Event T)) :=
  x []

/-! ## Collaborators -/

/-- Discovery probes `openshift.IsRouteAvailable(disc)` and
`kubernetes.IsIngressAvailable(disc)`. -/
structure DiscoveryInterface where
  IsRouteAvailable : Except GoError Bool
  IsIngressAvailable : Except GoError Bool

/-- The route and ingress builders (`newRouteBuilder`, `withRedirect`,
`newIngressBuilder`, `withCustomTLS` and the two `build` methods). -/
structure Builders (T : K8sTypes) where
  RouteBuilder : Type
  newRouteBuilder : Nexus → RouteBuilder
  withRedirect : RouteBuilder → RouteBuilder
  routeBuild : RouteBuilder → Except GoError (Route T)
  IngressBuilder : Type
  newIngressBuilder : Nexus → IngressBuilder
  withCustomTLS : IngressBuilder → IngressBuilder
  ingressBuild : IngressBuilder → Except GoError (Ingress T)

/-- Cluster client `client.Client`, restricted to `Get` on the two kinds. -/
structure Client (T : K8sTypes) where
  getRoute : NamespacedName → Except GoError (Route T)
  getIngress : NamespacedName → Except GoError (Ingress T)

/-! ## The manager -/

/-- Struct `manager`. -/
structure manager (T : K8sTypes) where
  nexus : Option Nexus
  client : Option (Client T)
  routeAvailable : Bool
  ingressAvailable : Bool

/-- Function `NewManager`. -/
def NewManager {T : K8sTypes} (nexus : Option Nexus) (client : Option (Client T))
    (disc : DiscoveryInterface) : Act T (Option (manager T) × Option GoError) := do
  emit .IsRouteAvailable
  match disc.IsRouteAvailable with
  | .error err => return (none, some (Errorf (discFailureFormat "routes" err)))
  | .ok routeAvailable =>
    emit .IsIngressAvailable
    match disc.IsIngressAvailable with
    | .error err => return (none, some (Errorf (discFailureFormat "rngresses" err)))
    | .ok ingressAvailable =>
      return (some { nexus := nexus, client := client, routeAvailable := routeAvailable,
                     ingressAvailable := ingressAvailable }, none)

/-- Method `manager.createRoute`. -/
def createRoute {T : K8sTypes} (b : Builders T) (m : manager T) :
    Act T (Except GoError (Route T)) := do
  let nexus ← deref m.nexus
  emit .newRouteBuilder
  let mut builder := b.newRouteBuilder nexus
  if nexus.Spec.Networking.TLS.Mandatory then
    emit .withRedirect
    builder := b.withRedirect builder
  emit .routeBuild
  return b.routeBuild builder

/-- Method `manager.createIngress`. -/
def createIngress {T : K8sTypes} (b : Builders T) (m : manager T) :
    Act T (Except GoError (Ingress T)) := do
  let nexus ← deref m.nexus
  emit .newIngressBuilder
  let mut builder := b.newIngressBuilder nexus
  if nexus.Spec.Networking.TLS.SecretName.utf8ByteSize > 0 then
    emit .withCustomTLS
    builder := b.withCustomTLS builder
  emit .ingressBuild
  return b.ingressBuild builder

/-- Method `manager.GetRequiredResources`. -/
def GetRequiredResources {T : K8sTypes} (b : Builders T) (m : manager T) :
    Act T (List (KubernetesResource T) × Option GoError) := do
  let mut resources : List (KubernetesResource T) := []
  let nexus ← deref m.nexus
  if nexus.Spec.Networking.Expose then
    match nexus.Spec.Networking.ExposeAs with
    | .RouteExposeType =>
      if !m.routeAvailable then
        return ([], some (Errorf (resUnavailableFormat "Routes")))
      emit (.logDebug ("Creating Route (" ++ nexus.Name ++ ")"))
      match ← createRoute b m with
      | .error err =>
        emit (.logError ("Could not create Route: " ++ err.msg))
        return ([], some (Errorf ("could not create route: " ++ err.msg)))
      | .ok route =>
        resources := resources ++ [.route route]
    | .IngressExposeType =>
      if !m.ingressAvailable then
        return ([], some (Errorf (resUnavailableFormat "ingresses")))
      emit (.logDebug ("Creating Ingress (" ++ nexus.Name ++ ")"))
      match ← createIngress b m with
      | .error err =>
        emit (.logError ("Could not create Ingress: " ++ err.msg))
        return ([], some (Errorf ("could not create ingress: " ++ err.msg)))
      | .ok ingress =>
        resources := resources ++ [.ingress ingress]
    | .other _ => pure ()
  return (resources, none)

/-- Method `manager.getDeployedRoute`. -/
def getDeployedRoute {T : K8sTypes} (m : manager T) : Act T (Except GoError (Route T)) := do
  let nexus ← deref m.nexus
  let key : NamespacedName := { Namespace := nexus.Namespace, Name := nexus.Name }
  let client ← deref m.client
  emit (.clientGetRoute key)
  match client.getRoute key with
  | .error err =>
    if IsNotFound err then
      emit (.logDebug ("There is no deployed Route (" ++ nexus.Name ++ ")"))
    return .error err
  | .ok route => return .ok route

/-- Method `manager.getDeployedIngress`. -/
def getDeployedIngress {T : K8sTypes} (m : manager T) :
    Act T (Except GoError (Ingress T)) := do
  let nexus ← deref m.nexus
  let key : NamespacedName := { Namespace := nexus.Namespace, Name := nexus.Name }
  let client ← deref m.client
  emit (.clientGetIngress key)
  match client.getIngress key with
  | .error err =>
    if IsNotFound err then
      emit (.logDebug ("There is no deployed Ingress (" ++ nexus.Name ++ ")"))
    return .error err
  | .ok ingress => return .ok ingress

/-- Method `manager.GetDeployedResources`. -/
def GetDeployedResources {T : K8sTypes} (m : manager T) :
    Act T (List (KubernetesResource T) × Option GoError) := do
  if m.nexus.isNone || m.client.isNone then
    return ([], some (Errorf mgrNotInit))
  let mut resources : List (KubernetesResource T) := []
  if m.routeAvailable then
    match ← getDeployedRoute m with
    | .ok route => resources := resources ++ [.route route]
    | .error err =>
      if !IsNotFound err then
        let nexus ← deref m.nexus
        emit (.logError ("Could not fetch Route (" ++ nexus.Name ++ "): " ++ err.msg))
        return ([], some (Errorf ("could not fetch route (" ++ nexus.Name ++ "): " ++ err.msg)))
  if m.ingressAvailable then
    match ← getDeployedIngress m with
    | .ok ingress => resources := resources ++ [.ingress ingress]
    | .error err =>
      if !IsNotFound err then
        let nexus ← deref m.nexus
        emit (.logError ("Could not fetch Ingress (" ++ nexus.Name ++ "): " ++ err.msg))
        return ([], some (Errorf ("could not fetch ingress (" ++ nexus.Name ++ "): " ++ err.msg)))
  return (resources, none)

/-! ## Comparators -/

/-- Values boxed as `interface{}` by `ingressEqual`. -/
inductive GoValue (T : K8sTypes) where
  | string (s : String)
  | ingressSpec (s : T.IngressSpec)

/-- Function `reflect.DeepEqual` on the boxed values: same dynamic type and deeply equal
contents. -/
def DeepEqual {T : K8sTypes} [DecidableEq T.IngressSpec] : GoValue T → GoValue T → Bool
  | .string a, .string b => decide (a = b)
  | .ingressSpec a, .ingressSpec b => decide (a = b)
  | _, _ => false

/-- Function `compare.EqualPairs` of the operator-utils library: it walks the pairs and
stops with `false` at the first pair whose members are not deeply equal. -/
def EqualPairs {T : K8sTypes} [DecidableEq T.IngressSpec] :
    List (GoValue T × GoValue T) → Bool
  | [] => true
  | (a, b) :: rest => if !DeepEqual a b then false else EqualPairs rest

/-- Type assertion `x.(*networkingv1beta1.Ingress)`; it panics on another dynamic type. -/
def assertIngress {T : K8sTypes} : KubernetesResource T → Act T (Ingress T)
  | .ingress i => pure i
  | .route _ => fun _ => none

/-- Function `ingressEqual`. -/
def ingressEqual {T : K8sTypes} [DecidableEq T.IngressSpec]
    (deployed requested : KubernetesResource T) : Act T Bool := do
  let ingress1 ← assertIngress deployed
  let ingress2 ← assertIngress requested
  let mut pairs : List (GoValue T × GoValue T) := []
  pairs := pairs ++ [(.string ingress1.ObjectMeta.Name, .string ingress2.ObjectMeta.Name)]
  pairs := pairs ++ [(.string ingress1.ObjectMeta.Namespace,
    .string ingress2.ObjectMeta.Namespace)]
  pairs := pairs ++ [(.ingressSpec ingress1.Spec, .ingressSpec ingress2.Spec)]
  let equal := EqualPairs pairs
  if !equal then
    emit (.logInfo "Resources are not equal" deployed requested)
  return equal

/-- Type of the custom comparison functions. -/
abbrev Comparator (T : K8sTypes) :=
  KubernetesResource T → KubernetesResource T → Act T Bool

/-- Method `manager.GetCustomComparator`; `none` is the nil function value. -/
def GetCustomComparator {T : K8sTypes} [DecidableEq T.IngressSpec] (_m : manager T)
    (t : ReflectType) : Option (Comparator T) :=
  if t = ReflectType.Ingress then some ingressEqual else none

/-- Method `manager.GetCustomComparators`; the Go map is given as its list of entries. -/
def GetCustomComparators {T : K8sTypes} [DecidableEq T.IngressSpec] (_m : manager T) :
    List (ReflectType × Comparator T) :=
  let ingressType := ReflectType.Ingress
  [(ingressType, ingressEqual)]

/-! ## Observers on traces -/

/-- Calls to the route builder. -/
def Event.isRouteBuilderCall {T : K8sTypes} : Event T → Bool
  | .newRouteBuilder => true
  | .withRedirect => true
  | .routeBuild => true
  | _ => false

/-- Calls to the ingress builder. -/
def Event.isIngressBuilderCall {T : K8sTypes} : Event T → Bool
  | .newIngressBuilder => true
  | .withCustomTLS => true
  | .ingressBuild => true
  | _ => false

/-- Lookups through the cluster client. -/
def Event.isClientCall {T : K8sTypes} : Event T → Bool
  | .clientGetRoute _ => true
  | .clientGetIngress _ => true
  | _ => false

/-- Lookup key built from the owner by `getDeployedRoute` and `getDeployedIngress`. -/
def ownerKey (nx : Nexus) : NamespacedName :=
  { Namespace := nx.Namespace, Name := nx.Name }

/-- Builder handed to `build` by `createRoute`. -/
def routeBuilderFor {T : K8sTypes} (b : Builders T) (nx : Nexus) : b.RouteBuilder :=
  if nx.Spec.Networking.TLS.Mandatory then b.withRedirect (b.newRouteBuilder nx)
  else b.newRouteBuilder nx

/-- Builder handed to `build` by `createIngress`. -/
def ingressBuilderFor {T : K8sTypes} (b : Builders T) (nx : Nexus) : b.IngressBuilder :=
  if nx.Spec.Networking.TLS.SecretName ≠ "" then b.withCustomTLS (b.newIngressBuilder nx)
  else b.newIngressBuilder nx

/-- Trace of `createRoute`. -/
def routeBuilderTrace {T : K8sTypes} (nx : Nexus) : List (Event T) :=
  [Event.newRouteBuilder] ++
    (if nx.Spec.Networking.TLS.Mandatory then [Event.withRedirect] else []) ++
    [Event.routeBuild]

/-- Trace of `createIngress`. -/
def ingressBuilderTrace {T : K8sTypes} (nx : Nexus) : List (Event T) :=
  [Event.newIngressBuilder] ++
    (if nx.Spec.Networking.TLS.SecretName ≠ "" then [Event.withCustomTLS] else []) ++
    [Event.ingressBuild]

/-- Resources contributed by the route lookup. -/
def foundRoute {T : K8sTypes} (c : Client T) (key : NamespacedName) :
    List (KubernetesResource T) :=
  match c.getRoute key with
  | .ok route => [.route route]
  | .error _ => []

/-- Resources contributed by the ingress lookup. -/
def foundIngress {T : K8sTypes} (c : Client T) (key : NamespacedName) :
    List (KubernetesResource T) :=
  match c.getIngress key with
  | .ok ingress => [.ingress ingress]
  | .error _ => []


/-! ## Sample collaborators and managers -/

/-- Payload types in which specs and statuses are plain texts. -/
abbrev sampleTypes : K8sTypes :=
  { RouteSpec := String, RouteStatus := String, IngressSpec := String, IngressStatus := String }

/-- Metadata of a freshly built object of the owner. -/
def sampleMeta (nx : Nexus) : ObjectMeta :=
  { Name := nx.Name, Namespace := nx.Namespace, ResourceVersion := "", Generation := 0,
    Annotations := [] }

/-- Builders that copy the owner identity, mark the modifier in the spec, and reject an
owner without a name. -/
def sampleBuilders : Builders sampleTypes where
  RouteBuilder := Route sampleTypes
  newRouteBuilder nx := { ObjectMeta := sampleMeta nx, Spec := "edge", Status := "" }
  withRedirect r := { r with Spec := r.Spec ++ "+redirect" }
  routeBuild r := if r.ObjectMeta.Name = "" then .error ⟨"name is required", false⟩ else .ok r
  IngressBuilder := Ingress sampleTypes
  newIngressBuilder nx := { ObjectMeta := sampleMeta nx, Spec := "http", Status := "" }
  withCustomTLS i := { i with Spec := i.Spec ++ "+tls" }
  ingressBuild i := if i.ObjectMeta.Name = "" then .error ⟨"name is required", false⟩ else .ok i

/-- Owner asking for a Route with mandatory TLS. -/
def routeOwner : Nexus :=
  { Name := "nexus3", Namespace := "dev",
    Spec := { Networking := { Expose := true, ExposeAs := .RouteExposeType,
                              TLS := { Mandatory := true, SecretName := "" } } } }

/-- Owner asking for an Ingress with a TLS secret. -/
def ingressOwner : Nexus :=
  { Name := "nexus3", Namespace := "dev",
    Spec := { Networking := { Expose := true, ExposeAs := .IngressExposeType,
                              TLS := { Mandatory := false, SecretName := "custom-cert" } } } }

/-- Owner that is not exposed. -/
def hiddenOwner : Nexus :=
  { Name := "nexus3", Namespace := "dev",
    Spec := { Networking := { Expose := false, ExposeAs := .RouteExposeType,
                              TLS := { Mandatory := false, SecretName := "" } } } }

/-- Owner exposed through a node port. -/
def nodePortOwner : Nexus :=
  { Name := "nexus3", Namespace := "dev",
    Spec := { Networking := { Expose := true, ExposeAs := .other "NodePort",
                              TLS := { Mandatory := false, SecretName := "" } } } }

/-- Route built by the sample builders for `routeOwner`. -/
def builtRoute : Route sampleTypes :=
  { ObjectMeta := sampleMeta routeOwner, Spec := "edge+redirect", Status := "" }

/-- Ingress built by the sample builders for `ingressOwner`. -/
def builtIngress : Ingress sampleTypes :=
  { ObjectMeta := sampleMeta ingressOwner, Spec := "http+tls", Status := "" }

/-- Route deployed for the sample owners. -/
def deployedRoute : Route sampleTypes :=
  { ObjectMeta := { Name := "nexus3", Namespace := "dev", ResourceVersion := "41",
                    Generation := 2, Annotations := [] },
    Spec := "edge+redirect", Status := "admitted" }

/-- Ingress deployed for the sample owners. -/
def deployedIngress : Ingress sampleTypes :=
  { ObjectMeta := { Name := "nexus3", Namespace := "dev", ResourceVersion := "77",
                    Generation := 3, Annotations := [("managed", "yes")] },
    Spec := "http+tls", Status := "ready" }

/-- Cluster holding the Route, but no Ingress. -/
def routeOnlyClient : Client sampleTypes where
  getRoute _ := .ok deployedRoute
  getIngress _ := .error { msg := "ingress not found", notFound := true }

/-- Cluster holding the Route, whose Ingress endpoint is failing. -/
def brokenIngressClient : Client sampleTypes where
  getRoute _ := .ok deployedRoute
  getIngress _ := .error { msg := "connection refused", notFound := false }

/-- Cluster whose Route endpoint is failing. -/
def brokenRouteClient : Client sampleTypes where
  getRoute _ := .error { msg := "connection refused", notFound := false }
  getIngress _ := .ok deployedIngress

/-- Manager of `owner` over `client` with the given capability flags. -/
def sampleManager (owner : Nexus) (client : Client sampleTypes)
    (routeAvailable ingressAvailable : Bool) : manager sampleTypes :=
  { nexus := some owner, client := some client, routeAvailable := routeAvailable,
    ingressAvailable := ingressAvailable }

/-- Discovery in which the Route probe succeeds and the Ingress probe fails. -/
def ingressProbeFailure : DiscoveryInterface :=
  { IsRouteAvailable := .ok true,
    IsIngressAvailable := .error { msg := "connection refused", notFound := false } }

/-! ## Theorems -/

theorem utf8ByteSize_pos_iff (s : String) : s.utf8ByteSize > 0 ↔ s ≠ "" := by
  rcases s with ⟨l⟩
  cases l with
  | nil => simp [String.utf8ByteSize, String.utf8ByteSize.go]
  | cons c cs =>
    have hc : 0 < c.utf8Size := Char.utf8Size_pos c
    constructor
    · intro _ h
      have := congrArg String.data h
      simp at this
    · intro _
      simp only [String.utf8ByteSize, String.utf8ByteSize.go]
      omega


theorem createRoute_run {T : K8sTypes} (b : Builders T) (m : manager T) (nx : Nexus)
    (hn : m.nexus = some nx) (tr0 : List (Event T)) :
    createRoute b m tr0 =
      some (b.routeBuild (routeBuilderFor b nx), tr0 ++ routeBuilderTrace nx) := by
  cases hM : nx.Spec.Networking.TLS.Mandatory <;>
    simp [createRoute, hn, deref, hM, routeBuilderFor, routeBuilderTrace, bind, StateT.bind, emit,
      Functor.map, StateT.map, pure, StateT.pure]

theorem createIngress_run {T : K8sTypes} (b : Builders T) (m : manager T) (nx : Nexus)
    (hn : m.nexus = some nx) (tr0 : List (Event T)) :
    createIngress b m tr0 =
      some (b.ingressBuild (ingressBuilderFor b nx), tr0 ++ ingressBuilderTrace nx) := by
  by_cases hS : nx.Spec.Networking.TLS.SecretName = ""
  · have h0 : ¬ (0 < nx.Spec.Networking.TLS.SecretName.utf8ByteSize) := by
      have := utf8ByteSize_pos_iff nx.Spec.Networking.TLS.SecretName
      simp_all
    simp [createIngress, hn, deref, h0, ingressBuilderFor, ingressBuilderTrace, bind,
      StateT.bind, emit, Functor.map, StateT.map, pure, StateT.pure]
    simp [hS]
  · have h0 : 0 < nx.Spec.Networking.TLS.SecretName.utf8ByteSize :=
      (utf8ByteSize_pos_iff _).2 hS
    simp [createIngress, hn, deref, hS, h0, ingressBuilderFor, ingressBuilderTrace, bind,
      StateT.bind, emit, Functor.map, StateT.map, pure, StateT.pure]

theorem routeBuilderTrace_no_ingress {T : K8sTypes} (nx : Nexus) :
    ∀ e ∈ (routeBuilderTrace nx : List (Event T)), e.isIngressBuilderCall = false := by
  intro e he
  cases hM : nx.Spec.Networking.TLS.Mandatory <;>
    simp [routeBuilderTrace, hM] at he <;>
    rcases he with rfl | rfl | rfl <;> rfl

/-- C9: for every owner configuration `createRoute` hands to `build` the new route builder
with `withRedirect` applied exactly when `TLS.Mandatory` is true, and `createIngress` hands
to `build` the new ingress builder with `withCustomTLS` applied exactly when
`TLS.SecretName` is non-empty; the traces show that the modifier is called at most once
and before `build`. -/
theorem create_applies_modifier_iff_predicate {T : K8sTypes} (b : Builders T) (m : manager T)
    (nx : Nexus) (hn : m.nexus = some nx) :
    (createRoute b m).exec =
        some (b.routeBuild (if nx.Spec.Networking.TLS.Mandatory = true then
                b.withRedirect (b.newRouteBuilder nx) else b.newRouteBuilder nx),
          [Event.newRouteBuilder] ++
            (if nx.Spec.Networking.TLS.Mandatory = true then [Event.withRedirect] else []) ++
            [Event.routeBuild]) ∧
      (createIngress b m).exec =
        some (b.ingressBuild (if nx.Spec.Networking.TLS.SecretName ≠ "" then
                b.withCustomTLS (b.newIngressBuilder nx) else b.newIngressBuilder nx),
          [Event.newIngressBuilder] ++
            (if nx.Spec.Networking.TLS.SecretName ≠ "" then [Event.withCustomTLS] else []) ++
            [Event.ingressBuild]) := by
  constructor
  · simpa [Act.exec, routeBuilderFor, routeBuilderTrace] using createRoute_run b m nx hn []
  · simpa [Act.exec, ingressBuilderFor, ingressBuilderTrace] using createIngress_run b m nx hn []

theorem ingressBuilderTrace_no_route {T : K8sTypes} (nx : Nexus) :
    ∀ e ∈ (ingressBuilderTrace nx : List (Event T)), e.isRouteBuilderCall = false := by
  intro e he
  by_cases hS : nx.Spec.Networking.TLS.SecretName = "" <;>
    simp [ingressBuilderTrace, hS] at he <;>
    rcases he with rfl | rfl | rfl <;> rfl

theorem GetRequiredResources_route_run {T : K8sTypes} (b : Builders T) (m : manager T)
    (nx : Nexus) (hn : m.nexus = some nx) (hE : nx.Spec.Networking.Expose = true)
    (hA : nx.Spec.Networking.ExposeAs = .RouteExposeType) :
    (GetRequiredResources b m).exec =
      if m.routeAvailable = true then
        match b.routeBuild (routeBuilderFor b nx) with
        | .ok route =>
          some (([.route route], none),
            Event.logDebug ("Creating Route (" ++ nx.Name ++ ")") :: routeBuilderTrace nx)
        | .error err =>
          some (([], some (Errorf ("could not create route: " ++ err.msg))),
            Event.logDebug ("Creating Route (" ++ nx.Name ++ ")") :: routeBuilderTrace nx ++
              [Event.logError ("Could not create Route: " ++ err.msg)])
      else some (([], some (Errorf (resUnavailableFormat "Routes"))), []) := by
  cases hr : m.routeAvailable
  · simp [GetRequiredResources, Act.exec, hn, hE, hA, hr, deref, bind, StateT.bind, emit,
      Functor.map, StateT.map, pure, StateT.pure]
  · cases hb : b.routeBuild (routeBuilderFor b nx) <;>
      simp [GetRequiredResources, Act.exec, hn, hE, hA, hr, hb, deref, bind, StateT.bind, emit,
        Functor.map, StateT.map, pure, StateT.pure, createRoute_run b m nx hn]

theorem GetRequiredResources_ingress_run {T : K8sTypes} (b : Builders T) (m : manager T)
    (nx : Nexus) (hn : m.nexus = some nx) (hE : nx.Spec.Networking.Expose = true)
    (hA : nx.Spec.Networking.ExposeAs = .IngressExposeType) :
    (GetRequiredResources b m).exec =
      if m.ingressAvailable = true then
        match b.ingressBuild (ingressBuilderFor b nx) with
        | .ok ingress =>
          some (([.ingress ingress], none),
            Event.logDebug ("Creating Ingress (" ++ nx.Name ++ ")") :: ingressBuilderTrace nx)
        | .error err =>
          some (([], some (Errorf ("could not create ingress: " ++ err.msg))),
            Event.logDebug ("Creating Ingress (" ++ nx.Name ++ ")") :: ingressBuilderTrace nx ++
              [Event.logError ("Could not create Ingress: " ++ err.msg)])
      else some (([], some (Errorf (resUnavailableFormat "ingresses"))), []) := by
  cases hr : m.ingressAvailable
  · simp [GetRequiredResources, Act.exec, hn, hE, hA, hr, deref, bind, StateT.bind, emit,
      Functor.map, StateT.map, pure, StateT.pure]
  · cases hb : b.ingressBuild (ingressBuilderFor b nx) <;>
      simp [GetRequiredResources, Act.exec, hn, hE, hA, hr, hb, deref, bind, StateT.bind, emit,
        Functor.map, StateT.map, pure, StateT.pure, createIngress_run b m nx hn]

theorem GetRequiredResources_none_run {T : K8sTypes} (b : Builders T) (m : manager T)
    (nx : Nexus) (hn : m.nexus = some nx)
    (h : nx.Spec.Networking.Expose = false ∨
      (nx.Spec.Networking.ExposeAs ≠ .RouteExposeType ∧
        nx.Spec.Networking.ExposeAs ≠ .IngressExposeType)) :
    (GetRequiredResources b m).exec = some (([], none), []) := by
  cases hE : nx.Spec.Networking.Expose
  · simp [GetRequiredResources, Act.exec, hn, hE, deref, bind, StateT.bind,
      Functor.map, StateT.map, pure, StateT.pure]
  · rcases h with h | ⟨h1, h2⟩
    · simp [hE] at h
    · cases hA : nx.Spec.Networking.ExposeAs with
      | RouteExposeType => exact absurd hA h1
      | IngressExposeType => exact absurd hA h2
      | other s =>
        simp [GetRequiredResources, Act.exec, hn, hE, hA, deref, bind, StateT.bind,
          Functor.map, StateT.map, pure, StateT.pure]

theorem GetRequiredResources_nil_owner {T : K8sTypes} (b : Builders T) (m : manager T)
    (hn : m.nexus = none) : (GetRequiredResources b m).exec = none := by
  simp [GetRequiredResources, Act.exec, hn, deref, bind, StateT.bind]

theorem GetRequiredResources_length_le_one {T : K8sTypes} (b : Builders T) (m : manager T)
    (res : List (KubernetesResource T)) (tr : List (Event T))
    (h : (GetRequiredResources b m).exec = some ((res, none), tr)) : res.length ≤ 1 := by
  cases hn : m.nexus with
  | none => rw [GetRequiredResources_nil_owner b m hn] at h; cases h
  | some nx =>
    cases hE : nx.Spec.Networking.Expose with
    | false =>
      rw [GetRequiredResources_none_run b m nx hn (Or.inl hE)] at h
      cases h; simp
    | true =>
      cases hA : nx.Spec.Networking.ExposeAs with
      | RouteExposeType =>
        rw [GetRequiredResources_route_run b m nx hn hE hA] at h
        split at h
        · split at h <;> cases h
          simp
        · cases h
      | IngressExposeType =>
        rw [GetRequiredResources_ingress_run b m nx hn hE hA] at h
        split at h
        · split at h <;> cases h
          simp
        · cases h
      | other s =>
        rw [GetRequiredResources_none_run b m nx hn (Or.inr (by simp [hA]))] at h
        cases h; simp

/-- C1: with `Expose` true and `ExposeAs` one of the two variants whose capability flag
is true, if that variant is built successfully then `GetRequiredResources` returns no
error and exactly the one built object, and the trace holds no call to the builder of the
other variant; for every input a result without error has at most one element and never
holds both a Route and an Ingress. -/
theorem GetRequiredResources_builds_only_requested_variant {T : K8sTypes} (b : Builders T)
    (m : manager T) :
    (∀ nx route tr, m.nexus = some nx → nx.Spec.Networking.Expose = true →
        nx.Spec.Networking.ExposeAs = .RouteExposeType → m.routeAvailable = true →
        (createRoute b m).exec = some (.ok route, tr) →
        ∃ tr', (GetRequiredResources b m).exec = some (([.route route], none), tr') ∧
          ∀ e ∈ tr', e.isIngressBuilderCall = false) ∧
    (∀ nx ingress tr, m.nexus = some nx → nx.Spec.Networking.Expose = true →
        nx.Spec.Networking.ExposeAs = .IngressExposeType → m.ingressAvailable = true →
        (createIngress b m).exec = some (.ok ingress, tr) →
        ∃ tr', (GetRequiredResources b m).exec = some (([.ingress ingress], none), tr') ∧
          ∀ e ∈ tr', e.isRouteBuilderCall = false) ∧
    (∀ res tr, (GetRequiredResources b m).exec = some ((res, none), tr) →
        res.length ≤ 1 ∧
          ¬ ∃ r i, KubernetesResource.route r ∈ res ∧ KubernetesResource.ingress i ∈ res) := by
  refine ⟨?_, ?_, ?_⟩
  · intro nx route tr hn hE hA hr hc
    have hb : b.routeBuild (routeBuilderFor b nx) = .ok route := by
      have := createRoute_run b m nx hn []
      simp only [Act.exec] at hc
      rw [this] at hc
      simpa using congrArg (fun o => o.map Prod.fst) hc
    refine ⟨Event.logDebug ("Creating Route (" ++ nx.Name ++ ")") :: routeBuilderTrace nx,
      ?_, ?_⟩
    · rw [GetRequiredResources_route_run b m nx hn hE hA, if_pos hr, hb]
    · intro e he
      rcases List.mem_cons.1 he with rfl | he
      · rfl
      · exact routeBuilderTrace_no_ingress nx e he
  · intro nx ingress tr hn hE hA hr hc
    have hb : b.ingressBuild (ingressBuilderFor b nx) = .ok ingress := by
      have := createIngress_run b m nx hn []
      simp only [Act.exec] at hc
      rw [this] at hc
      simpa using congrArg (fun o => o.map Prod.fst) hc
    refine ⟨Event.logDebug ("Creating Ingress (" ++ nx.Name ++ ")") :: ingressBuilderTrace nx,
      ?_, ?_⟩
    · rw [GetRequiredResources_ingress_run b m nx hn hE hA, if_pos hr, hb]
    · intro e he
      rcases List.mem_cons.1 he with rfl | he
      · rfl
      · exact ingressBuilderTrace_no_route nx e he
  · intro res tr h
    have hl := GetRequiredResources_length_le_one b m res tr h
    refine ⟨hl, ?_⟩
    rintro ⟨r, i, hr, hi⟩
    match res, hl, hr, hi with
    | [], _, hr, _ => cases hr
    | [x], _, hr, hi =>
      simp only [List.mem_singleton] at hr hi
      rw [← hr] at hi
      cases hi

/-- C2: with `Expose` true and `ExposeAs` a variant whose capability flag is false,
`GetRequiredResources` returns no resources and the unavailable-resource error of that
variant, whatever the other flag is; the trace is empty, so no builder is called and the
other variant is not built instead. -/
theorem GetRequiredResources_unavailable_variant_fails {T : K8sTypes} (b : Builders T)
    (m : manager T) (nx : Nexus) (hn : m.nexus = some nx)
    (hE : nx.Spec.Networking.Expose = true) :
    (nx.Spec.Networking.ExposeAs = .RouteExposeType → m.routeAvailable = false →
        (GetRequiredResources b m).exec =
          some (([], some (Errorf "Routes are not available in this cluster")), [])) ∧
    (nx.Spec.Networking.ExposeAs = .IngressExposeType → m.ingressAvailable = false →
        (GetRequiredResources b m).exec =
          some (([], some (Errorf "ingresses are not available in this cluster")), [])) := by
  constructor
  · intro hA hr
    rw [GetRequiredResources_route_run b m nx hn hE hA]
    simp [hr, resUnavailableFormat]
  · intro hA hr
    rw [GetRequiredResources_ingress_run b m nx hn hE hA]
    simp [hr, resUnavailableFormat]

/-- C3: for a manager with an owner, `GetRequiredResources` returns no resources and no
error when `Expose` is false, and also when `Expose` is true but `ExposeAs` is neither
the Route nor the Ingress expose type; the trace is empty, so no builder is called. -/
theorem GetRequiredResources_empty_when_not_exposed {T : K8sTypes} (b : Builders T)
    (m : manager T) (nx : Nexus) (hn : m.nexus = some nx) :
    (nx.Spec.Networking.Expose = false →
        (GetRequiredResources b m).exec = some (([], none), [])) ∧
    (nx.Spec.Networking.Expose = true →
      nx.Spec.Networking.ExposeAs ≠ .RouteExposeType →
      nx.Spec.Networking.ExposeAs ≠ .IngressExposeType →
        (GetRequiredResources b m).exec = some (([], none), [])) :=
  ⟨fun hE => GetRequiredResources_none_run b m nx hn (Or.inl hE),
   fun _ h1 h2 => GetRequiredResources_none_run b m nx hn (Or.inr ⟨h1, h2⟩)⟩

theorem getDeployedRoute_run {T : K8sTypes} (m : manager T) (nx : Nexus) (c : Client T)
    (hn : m.nexus = some nx) (hc : m.client = some c) (tr0 : List (Event T)) :
    getDeployedRoute m tr0 =
      some (c.getRoute (ownerKey nx),
        tr0 ++ Event.clientGetRoute (ownerKey nx) ::
          (match c.getRoute (ownerKey nx) with
           | .error err =>
             if IsNotFound err = true then
               [Event.logDebug ("There is no deployed Route (" ++ nx.Name ++ ")")]
             else []
           | .ok _ => [])) := by
  cases hg : c.getRoute (ownerKey nx) with
  | ok r =>
    simp [getDeployedRoute, hn, hc, deref, bind, StateT.bind, emit, Functor.map, StateT.map,
      pure, StateT.pure]
    simp [ownerKey] at hg
    simp [hg, pure, StateT.pure, ownerKey]
  | error err =>
    simp [getDeployedRoute, hn, hc, deref, bind, StateT.bind, emit, Functor.map, StateT.map,
      pure, StateT.pure]
    simp [ownerKey] at hg
    cases hnf : IsNotFound err <;>
      simp [hg, hnf, pure, StateT.pure, ownerKey, bind, StateT.bind, emit, Functor.map,
        StateT.map]

theorem getDeployedIngress_run {T : K8sTypes} (m : manager T) (nx : Nexus) (c : Client T)
    (hn : m.nexus = some nx) (hc : m.client = some c) (tr0 : List (Event T)) :
    getDeployedIngress m tr0 =
      some (c.getIngress (ownerKey nx),
        tr0 ++ Event.clientGetIngress (ownerKey nx) ::
          (match c.getIngress (ownerKey nx) with
           | .error err =>
             if IsNotFound err = true then
               [Event.logDebug ("There is no deployed Ingress (" ++ nx.Name ++ ")")]
             else []
           | .ok _ => [])) := by
  cases hg : c.getIngress (ownerKey nx) with
  | ok r =>
    simp [getDeployedIngress, hn, hc, deref, bind, StateT.bind, emit, Functor.map, StateT.map,
      pure, StateT.pure]
    simp [ownerKey] at hg
    simp [hg, pure, StateT.pure, ownerKey]
  | error err =>
    simp [getDeployedIngress, hn, hc, deref, bind, StateT.bind, emit, Functor.map, StateT.map,
      pure, StateT.pure]
    simp [ownerKey] at hg
    cases hnf : IsNotFound err <;>
      simp [hg, hnf, pure, StateT.pure, ownerKey, bind, StateT.bind, emit, Functor.map,
        StateT.map]

/-- C4: for an initialized manager, when every attempted lookup succeeds or fails with
not-found, `GetDeployedResources` returns no error and exactly the objects found for the
variants whose capability flag is true, the Route before the Ingress; the client is
called for the variants whose flag is true and for no other. -/
theorem GetDeployedResources_collects_found_objects {T : K8sTypes} (m : manager T)
    (nx : Nexus) (c : Client T) (hn : m.nexus = some nx) (hc : m.client = some c)
    (hR : m.routeAvailable = true → ∀ err, c.getRoute (ownerKey nx) = .error err →
      IsNotFound err = true)
    (hI : m.ingressAvailable = true → ∀ err, c.getIngress (ownerKey nx) = .error err →
      IsNotFound err = true) :
    ∃ tr, (GetDeployedResources m).exec =
        some (((if m.routeAvailable = true then foundRoute c (ownerKey nx) else []) ++
               (if m.ingressAvailable = true then foundIngress c (ownerKey nx) else []),
              none), tr) ∧
      tr.filter Event.isClientCall =
        (if m.routeAvailable = true then [Event.clientGetRoute (ownerKey nx)] else []) ++
        (if m.ingressAvailable = true then [Event.clientGetIngress (ownerKey nx)] else []) := by
  have hR' : ∀ err, m.routeAvailable = true → c.getRoute (ownerKey nx) = .error err →
      err.notFound = true := fun err h1 h2 => hR h1 err h2
  have hI' : ∀ err, m.ingressAvailable = true → c.getIngress (ownerKey nx) = .error err →
      err.notFound = true := fun err h1 h2 => hI h1 err h2
  clear hR hI
  cases hr : m.routeAvailable <;> cases hi : m.ingressAvailable <;>
    cases hgr : c.getRoute (ownerKey nx) <;> cases hgi : c.getIngress (ownerKey nx) <;>
    simp only [hr, hi, hgr, hgi] at hR' hI' <;>
    simp [GetDeployedResources, Act.exec, hn, hc, hr, hi, hgr, hgi, bind, StateT.bind, pure,
      StateT.pure, getDeployedIngress_run m nx c hn hc, getDeployedRoute_run m nx c hn hc,
      foundIngress, foundRoute, Event.isClientCall, IsNotFound, hR', hI', emit, Functor.map,
      StateT.map, deref, List.filter]

/-- C5: for an initialized manager, a lookup of an available variant that fails with
another condition than not-found makes `GetDeployedResources` return the fetch error of
that variant and no resources: after a failed Route lookup the client is not called for
the Ingress, and after a failed Ingress lookup a Route fetched before is not returned. -/
theorem GetDeployedResources_aborts_on_fetch_error {T : K8sTypes} (m : manager T)
    (nx : Nexus) (c : Client T) (hn : m.nexus = some nx) (hc : m.client = some c) :
    (∀ err, m.routeAvailable = true → c.getRoute (ownerKey nx) = .error err →
        IsNotFound err = false →
        ∃ tr, (GetDeployedResources m).exec =
            some (([], some (Errorf
              ("could not fetch route (" ++ nx.Name ++ "): " ++ err.msg))), tr) ∧
          tr.filter Event.isClientCall = [Event.clientGetRoute (ownerKey nx)]) ∧
    (∀ err, m.ingressAvailable = true → c.getIngress (ownerKey nx) = .error err →
        IsNotFound err = false →
        (m.routeAvailable = true → ∀ e, c.getRoute (ownerKey nx) = .error e →
          IsNotFound e = true) →
        ∃ tr, (GetDeployedResources m).exec =
            some (([], some (Errorf
              ("could not fetch ingress (" ++ nx.Name ++ "): " ++ err.msg))), tr)) := by
  constructor
  · intro err hr hgr hnf
    simp only [IsNotFound] at hnf
    cases hi : m.ingressAvailable <;>
      simp [GetDeployedResources, Act.exec, hn, hc, hr, hi, hgr, bind, StateT.bind, pure,
        StateT.pure, getDeployedRoute_run m nx c hn hc,
        Event.isClientCall, IsNotFound, hnf, emit, Functor.map,
        StateT.map, deref, List.filter]
  · intro err hi hgi hnf hR
    have hR' : ∀ e, m.routeAvailable = true → c.getRoute (ownerKey nx) = .error e →
      e.notFound = true := fun e h1 h2 => hR h1 e h2
    clear hR
    simp only [IsNotFound] at hnf
    cases hr : m.routeAvailable <;> cases hgr : c.getRoute (ownerKey nx) <;>
      simp only [hr, hgr] at hR' <;>
      simp [GetDeployedResources, Act.exec, hn, hc, hr, hi, hgr, hgi, bind, StateT.bind, pure,
        StateT.pure, getDeployedIngress_run m nx c hn hc, getDeployedRoute_run m nx c hn hc,
        Event.isClientCall, IsNotFound, hR', hnf, emit, Functor.map,
        StateT.map, deref, List.filter]

/-- C6: a manager without owner or without client makes `GetDeployedResources` return
no resources and the error "the manager has not been initialized", for every pair of
capability flags; the trace is empty, so the client is not called. -/
theorem GetDeployedResources_not_initialized {T : K8sTypes} (m : manager T)
    (h : m.nexus = none ∨ m.client = none) :
    (GetDeployedResources m).exec =
      some (([], some (Errorf "the manager has not been initialized")), []) := by
  rcases h with h | h <;>
    simp [GetDeployedResources, Act.exec, h, bind, StateT.bind, pure, StateT.pure, mgrNotInit]


theorem ingressEqual_run {T : K8sTypes} [DecidableEq T.IngressSpec] (d r : Ingress T) :
    (ingressEqual (.ingress d) (.ingress r)).exec =
      some (decide (d.ObjectMeta.Name = r.ObjectMeta.Name ∧
              d.ObjectMeta.Namespace = r.ObjectMeta.Namespace ∧ d.Spec = r.Spec),
        if d.ObjectMeta.Name = r.ObjectMeta.Name ∧
            d.ObjectMeta.Namespace = r.ObjectMeta.Namespace ∧ d.Spec = r.Spec then []
        else [Event.logInfo "Resources are not equal" (.ingress d) (.ingress r)]) := by
  by_cases h1 : d.ObjectMeta.Name = r.ObjectMeta.Name <;>
    by_cases h2 : d.ObjectMeta.Namespace = r.ObjectMeta.Namespace <;>
    by_cases h3 : d.Spec = r.Spec <;>
    simp [ingressEqual, Act.exec, assertIngress, EqualPairs, DeepEqual, h1, h2, h3, bind,
      StateT.bind, pure, StateT.pure, emit, Functor.map, StateT.map]

/-- C7: on two Ingress objects `ingressEqual` returns a value, which is true if and only
if names, namespaces and specs are equal; hence it is true for a copy that differs in
status, resource version, generation and annotations, and false for a copy that differs
in the namespace only. -/
theorem ingressEqual_iff_name_namespace_spec {T : K8sTypes} [DecidableEq T.IngressSpec]
    (deployed requested : Ingress T) :
    (∃ v tr, (ingressEqual (.ingress deployed) (.ingress requested)).exec = some (v, tr) ∧
      (v = true ↔ deployed.ObjectMeta.Name = requested.ObjectMeta.Name ∧
        deployed.ObjectMeta.Namespace = requested.ObjectMeta.Namespace ∧
        deployed.Spec = requested.Spec)) ∧
    (∀ status resourceVersion generation annotations, ∃ tr,
      (ingressEqual
        (.ingress { requested with
          Status := status
          ObjectMeta := { requested.ObjectMeta with
            ResourceVersion := resourceVersion
            Generation := generation
            Annotations := annotations } })
        (.ingress requested)).exec = some (true, tr)) ∧
    (∀ ns, ns ≠ requested.ObjectMeta.Namespace → ∃ tr,
      (ingressEqual
        (.ingress { requested with
          ObjectMeta := { requested.ObjectMeta with Namespace := ns } })
        (.ingress requested)).exec = some (false, tr)) := by
  refine ⟨?_, ?_, ?_⟩
  · exact ⟨_, _, ingressEqual_run deployed requested, by simp⟩
  · intro status rv gen ann
    refine ⟨[], ?_⟩
    rw [ingressEqual_run]
    simp
  · intro ns hns
    rw [ingressEqual_run]
    simp [hns]


theorem NewManager_run {T : K8sTypes} (nexus : Option Nexus) (client : Option (Client T))
    (disc : DiscoveryInterface) :
    (NewManager nexus client disc).exec =
      match disc.IsRouteAvailable with
      | .error err =>
        some ((none, some (Errorf ("unable to determine if routes are available: " ++ err.msg))),
          [Event.IsRouteAvailable])
      | .ok routeAvailable =>
        match disc.IsIngressAvailable with
        | .error err =>
          some ((none,
              some (Errorf ("unable to determine if rngresses are available: " ++ err.msg))),
            [Event.IsRouteAvailable, Event.IsIngressAvailable])
        | .ok ingressAvailable =>
          some ((some { nexus := nexus, client := client, routeAvailable := routeAvailable,
                        ingressAvailable := ingressAvailable }, none),
            [Event.IsRouteAvailable, Event.IsIngressAvailable]) := by
  cases hr : disc.IsRouteAvailable <;> cases hi : disc.IsIngressAvailable <;>
    simp [NewManager, Act.exec, hr, hi, bind, StateT.bind, pure, StateT.pure, emit,
      discFailureFormat]

/-- C8, counterexample: for the Route type `GetCustomComparator` returns nil, and the table
of `GetCustomComparators` has one entry, not two. -/
theorem GetCustomComparator_route_is_nil :
    (GetCustomComparator (sampleManager routeOwner routeOnlyClient true false)
        ReflectType.Route).isSome = false ∧
      (GetCustomComparators (sampleManager routeOwner routeOnlyClient true false)).length
        ≠ 2 := by
  constructor
  · rfl
  · decide

/-- C8, amended: the comparator lookup is a fixed table of one entry: `GetCustomComparator`
returns `ingressEqual` for the Ingress type and nil for every other type, the Route type
included; `GetCustomComparators` holds exactly that entry; the comparator obtained for the
Ingress type returns true on a requested Ingress and a deployed copy that differs in the
resource version only. -/
theorem comparator_table_holds_ingress_only {T : K8sTypes} [DecidableEq T.IngressSpec]
    (m : manager T) :
    GetCustomComparator m ReflectType.Ingress = some ingressEqual ∧
    (∀ t, t ≠ ReflectType.Ingress → GetCustomComparator m t = none) ∧
    GetCustomComparators m = [(ReflectType.Ingress, ingressEqual)] ∧
    (∃ cmp, GetCustomComparator m ReflectType.Ingress = some cmp ∧
      ∀ (requested : Ingress T) (resourceVersion : String), ∃ tr,
        (cmp
          (.ingress { requested with
            ObjectMeta := { requested.ObjectMeta with ResourceVersion := resourceVersion } })
          (.ingress requested)).exec = some (true, tr)) := by
  refine ⟨?_, ?_, ?_, ?_⟩
  · simp [GetCustomComparator]
  · intro t ht
    simp [GetCustomComparator, ht]
  · rfl
  · refine ⟨ingressEqual, by simp [GetCustomComparator], ?_⟩
    intro requested rv
    refine ⟨[], ?_⟩
    rw [ingressEqual_run]
    simp

/-- C10, the code at the failing input: when the Route probe succeeds and the Ingress probe
fails, the text of the discovery error names "rngresses". -/
theorem NewManager_ingress_probe_error_text :
    (NewManager (some routeOwner) (some routeOnlyClient) ingressProbeFailure).exec =
      some ((none, some (Errorf
          "unable to determine if rngresses are available: connection refused")),
        [Event.IsRouteAvailable, Event.IsIngressAvailable]) := by
  rfl

/-! ## Instances of the theorems on the sample managers -/

/-- C1 on the sample managers: a Route owner on a cluster with routes, an Ingress owner on a cluster with both kinds. -/
theorem GetRequiredResources_builds_only_requested_variant_witness :
    (∃ tr, (GetRequiredResources sampleBuilders
          (sampleManager routeOwner routeOnlyClient true false)).exec =
        some (([.route builtRoute], none), tr) ∧
      ∀ e ∈ tr, e.isIngressBuilderCall = false) ∧
    (∃ tr, (GetRequiredResources sampleBuilders
          (sampleManager ingressOwner routeOnlyClient true true)).exec =
        some (([.ingress builtIngress], none), tr) ∧
      ∀ e ∈ tr, e.isRouteBuilderCall = false) ∧
    ([KubernetesResource.route builtRoute].length ≤ 1 ∧
      ¬ ∃ r i, KubernetesResource.route r ∈ [KubernetesResource.route builtRoute] ∧
          KubernetesResource.ingress i ∈ [KubernetesResource.route builtRoute]) :=
  ⟨(GetRequiredResources_builds_only_requested_variant sampleBuilders
      (sampleManager routeOwner routeOnlyClient true false)).1 routeOwner builtRoute
      [Event.newRouteBuilder, Event.withRedirect, Event.routeBuild] rfl rfl rfl rfl rfl,
   (GetRequiredResources_builds_only_requested_variant sampleBuilders
      (sampleManager ingressOwner routeOnlyClient true true)).2.1 ingressOwner builtIngress
      [Event.newIngressBuilder, Event.withCustomTLS, Event.ingressBuild] rfl rfl rfl rfl rfl,
   (GetRequiredResources_builds_only_requested_variant sampleBuilders
      (sampleManager routeOwner routeOnlyClient true false)).2.2 [.route builtRoute]
      [Event.logDebug "Creating Route (nexus3)", Event.newRouteBuilder, Event.withRedirect,
        Event.routeBuild] rfl⟩

/-- C2 on the sample managers: the requested kind is missing while the other kind is present. -/
theorem GetRequiredResources_unavailable_variant_fails_witness :
    (GetRequiredResources sampleBuilders
        (sampleManager routeOwner routeOnlyClient false true)).exec =
      some (([], some (Errorf "Routes are not available in this cluster")), []) ∧
    (GetRequiredResources sampleBuilders
        (sampleManager ingressOwner routeOnlyClient true false)).exec =
      some (([], some (Errorf "ingresses are not available in this cluster")), []) :=
  ⟨(GetRequiredResources_unavailable_variant_fails sampleBuilders
      (sampleManager routeOwner routeOnlyClient false true) routeOwner rfl rfl).1 rfl rfl,
   (GetRequiredResources_unavailable_variant_fails sampleBuilders
      (sampleManager ingressOwner routeOnlyClient true false) ingressOwner rfl rfl).2 rfl rfl⟩

/-- C3 on the sample managers: an owner that is not exposed, and an owner exposed through a node port. -/
theorem GetRequiredResources_empty_when_not_exposed_witness :
    (GetRequiredResources sampleBuilders
        (sampleManager hiddenOwner routeOnlyClient true true)).exec = some (([], none), []) ∧
    (GetRequiredResources sampleBuilders
        (sampleManager nodePortOwner routeOnlyClient true true)).exec =
      some (([], none), []) :=
  ⟨(GetRequiredResources_empty_when_not_exposed sampleBuilders
      (sampleManager hiddenOwner routeOnlyClient true true) hiddenOwner rfl).1 rfl,
   (GetRequiredResources_empty_when_not_exposed sampleBuilders
      (sampleManager nodePortOwner routeOnlyClient true true) nodePortOwner rfl).2 rfl
      (by decide) (by decide)⟩

/-- C4 on a sample manager: the Route is found and the Ingress is absent. -/
theorem GetDeployedResources_collects_found_objects_witness :
    ∃ tr, (GetDeployedResources (sampleManager ingressOwner routeOnlyClient true true)).exec =
        some (([.route deployedRoute], none), tr) ∧
      tr.filter Event.isClientCall =
        [Event.clientGetRoute { Namespace := "dev", Name := "nexus3" },
         Event.clientGetIngress { Namespace := "dev", Name := "nexus3" }] :=
  GetDeployedResources_collects_found_objects
    (sampleManager ingressOwner routeOnlyClient true true) ingressOwner routeOnlyClient rfl rfl
    (fun _ err h => by cases h)
    (fun _ err h => by cases h; rfl)

/-- C5 on the sample managers: a failing Route lookup, and a failing Ingress lookup after a Route was fetched. -/
theorem GetDeployedResources_aborts_on_fetch_error_witness :
    (∃ tr, (GetDeployedResources (sampleManager routeOwner brokenRouteClient true true)).exec =
        some (([], some (Errorf "could not fetch route (nexus3): connection refused")), tr) ∧
      tr.filter Event.isClientCall =
        [Event.clientGetRoute { Namespace := "dev", Name := "nexus3" }]) ∧
    (∃ tr, (GetDeployedResources
          (sampleManager routeOwner brokenIngressClient true true)).exec =
        some (([], some (Errorf "could not fetch ingress (nexus3): connection refused")),
          tr)) :=
  ⟨(GetDeployedResources_aborts_on_fetch_error
      (sampleManager routeOwner brokenRouteClient true true) routeOwner brokenRouteClient
      rfl rfl).1 _ rfl rfl rfl,
   (GetDeployedResources_aborts_on_fetch_error
      (sampleManager routeOwner brokenIngressClient true true) routeOwner brokenIngressClient
      rfl rfl).2 _ rfl rfl rfl (fun _ e h => by cases h)⟩

/-- C6 on managers without owner and without client. -/
theorem GetDeployedResources_not_initialized_witness :
    (GetDeployedResources
        ({ nexus := none, client := some routeOnlyClient, routeAvailable := true,
           ingressAvailable := true } : manager sampleTypes)).exec =
      some (([], some (Errorf "the manager has not been initialized")), []) ∧
    (GetDeployedResources
        ({ nexus := some routeOwner, client := none, routeAvailable := true,
           ingressAvailable := false } : manager sampleTypes)).exec =
      some (([], some (Errorf "the manager has not been initialized")), []) :=
  ⟨GetDeployedResources_not_initialized _ (Or.inl rfl),
   GetDeployedResources_not_initialized _ (Or.inr rfl)⟩

/-- C7 on the sample Ingress and a copy in another namespace. -/
theorem ingressEqual_iff_name_namespace_spec_witness :
    "prod" ≠ deployedIngress.ObjectMeta.Namespace ∧
    ∃ tr, (ingressEqual
        (.ingress { deployedIngress with
          ObjectMeta := { deployedIngress.ObjectMeta with Namespace := "prod" } })
        (.ingress deployedIngress)).exec = some (false, tr) :=
  ⟨by decide,
   (ingressEqual_iff_name_namespace_spec deployedIngress deployedIngress).2.2 "prod"
     (by decide)⟩

/-- C8 as amended, on a sample manager, for the Route type. -/
theorem comparator_table_holds_ingress_only_witness :
    ReflectType.Route ≠ ReflectType.Ingress ∧
    GetCustomComparator (sampleManager routeOwner routeOnlyClient true false)
      ReflectType.Route = none :=
  ⟨by decide,
   (comparator_table_holds_ingress_only
      (sampleManager routeOwner routeOnlyClient true false)).2.1 ReflectType.Route
      (by decide)⟩

/-- C9 on the sample owner with mandatory TLS and no TLS secret. -/
theorem create_applies_modifier_iff_predicate_witness :
    (createRoute sampleBuilders (sampleManager routeOwner routeOnlyClient true false)).exec =
        some (.ok builtRoute,
          [Event.newRouteBuilder, Event.withRedirect, Event.routeBuild]) ∧
      (createIngress sampleBuilders
          (sampleManager routeOwner routeOnlyClient true false)).exec =
        some (.ok { ObjectMeta := sampleMeta routeOwner, Spec := "http", Status := "" },
          [Event.newIngressBuilder, Event.ingressBuild]) :=
  create_applies_modifier_iff_predicate sampleBuilders
    (sampleManager routeOwner routeOnlyClient true false) routeOwner rfl

end Networking
